import Mathlib

/-!
Shallow embedding of the controller-runtime OpenCensus metrics layer.

The embedded code consists of four Go files:
* the core `metrics` package (measure declarations, tag keys, the client
  latency/result adapters, the name-bound `intMetric`/`floatMetric` adapters
  and the reflector/workqueue metric factory providers);
* the core package's default views (`default_views.go`);
* the webhook `metrics` package (two measures and two tag keys);
* the webhook package's default views.

Tag-context creation and record hand-off belong to the external OpenCensus
runtime (`go.opencensus.io/stats`, `go.opencensus.io/tag`); they are embedded
here at their documented interface: tag keys and values are validated as
printable US-ASCII of bounded length, `tag.New` reports a validation error and
leaves the context untouched, `stats.Record` hands exactly one record per
measurement to the runtime, and `stats.RecordWithTags` records nothing when
tag-context creation fails.  Numeric values are modelled as rationals
(`float64` rounding is abstracted away).
-/

set_option autoImplicit false

set_option maxRecDepth 16384

namespace ControllerRuntime

/-- Printable US-ASCII character (space `0x20` through tilde `0x7e`), the
character set OpenCensus accepts in tag keys and tag values. -/
def isPrintableASCII (c : Char) : Bool :=
  0x20 ≤ c.toNat && c.toNat ≤ 0x7e

/-- Validation of a tag-key name (`go.opencensus.io/tag` `checkKeyName`):
length between 1 and 255 and printable US-ASCII, exactly the restrictions
quoted in the webhook metrics source comment. -/
def checkKeyName (s : String) : Bool :=
  1 ≤ s.length && s.length ≤ 255 && s.data.all isPrintableASCII

/-- Validation of a tag value (`go.opencensus.io/tag` `checkValue`):
length at most 255 and printable US-ASCII (the empty value is allowed). -/
def checkValue (s : String) : Bool :=
  s.length ≤ 255 && s.data.all isPrintableASCII

/-- An interned, validated tag key (`tag.Key`). -/
structure TagKey where
  name : String
deriving DecidableEq, Repr

/-- Construction of a tag key (`tag.NewKey`): fails on an invalid name. -/
def NewKey (k : String) : Except String TagKey :=
  if checkKeyName k then .ok ⟨k⟩ else .error "invalid key name"

/-- Helper defined identically in the core and webhook metrics packages:
`tag.NewKey` with the error branch turned into a panic.  The panic is
modelled as `none`. -/
def mustNewTagKey (k : String) : Option TagKey :=
  match NewKey k with
  | .ok tagKey => some tagKey
  | .error _ => none

/-- A tag map: the `(TagKey, TagValue)` pairs carried by a tag context
(`tag.Map`).  `context.Background()` carries the empty map. -/
abbrev TagMap := List (TagKey × String)

/-- A tag mutator produced by `tag.Insert(key, value)`. -/
structure Mutator where
  key : TagKey
  value : String
deriving DecidableEq, Repr

/-- The `tag.Insert` constructor. -/
def tagInsert (k : TagKey) (v : String) : Mutator := ⟨k, v⟩

/-- Application of one insert mutator (`Mutate` for the insert behavior):
an invalid value is a validation error; an already-present key leaves the
map unchanged; otherwise the pair is appended. -/
def applyInsert (m : TagMap) (mu : Mutator) : Except String TagMap :=
  if checkValue mu.value then
    if m.any (fun p => p.1 = mu.key) then .ok m
    else .ok (m ++ [(mu.key, mu.value)])
  else .error "invalid value"

/-- Sequential application of mutators, stopping at the first error. -/
def applyMutators (m : TagMap) : List Mutator → Except String TagMap
  | [] => .ok m
  | mu :: rest =>
    match applyInsert m mu with
    | .ok m2 => applyMutators m2 rest
    | .error e => .error e

/-- `tag.New(context.Background(), mutators...)`: builds a fresh tag map; on a
mutator error it returns the original (empty) context together with the
error. -/
def tagNew (muts : List Mutator) : TagMap × Option String :=
  match applyMutators [] muts with
  | .ok m => (m, none)
  | .error e => ([], some e)

/-- The kind of a measure: declared through `stats.Int64` or `stats.Float64`. -/
inductive MeasureKind where
  | int64
  | float64
deriving DecidableEq, Repr

/-- A declared measure (`stats.Measure`): globally unique name, description,
unit and kind. -/
structure Measure where
  name : String
  description : String
  unit : String
  kind : MeasureKind
deriving DecidableEq, Repr

/-- `stats.Int64(name, description, unit)`. -/
def statsInt64 (name description unit : String) : Measure :=
  ⟨name, description, unit, .int64⟩

/-- `stats.Float64(name, description, unit)`. -/
def statsFloat64 (name description unit : String) : Measure :=
  ⟨name, description, unit, .float64⟩

/-- `stats.UnitNone`. -/
def UnitNone : String := "1"

/-- A measurement (`stats.Measurement`): a measure together with the value to
record, produced by `measure.M(v)`.  OpenCensus stores the value as `float64`
for both measure kinds; it is modelled as a rational. -/
structure Measurement where
  measure : Measure
  value : ℚ
deriving DecidableEq, Repr

/-- `measure.M(v)`. -/
def Measure.M (m : Measure) (v : ℚ) : Measurement := ⟨m, v⟩

/-- A measurement record handed to the export runtime: measure, value and the
tag map of the recording context.  The spec calls this a MeasurementRecord. -/
structure MeasurementRecord where
  measure : Measure
  value : ℚ
  tags : TagMap
deriving DecidableEq, Repr

/-- `stats.Record(ctx, m)`: hands exactly one record per measurement to the
export runtime, under the context's tag map. -/
def statsRecord (ctx : TagMap) (m : Measurement) : List MeasurementRecord :=
  [⟨m.measure, m.value, ctx⟩]

/-- `stats.RecordWithTags(context.Background(), mutators, m)`: builds the tag
map from the mutators; on a mutator error it returns the error and records
nothing, otherwise it records under the fresh map.  The first component is
the list of records handed to the runtime, the second the returned error. -/
def recordWithTags (muts : List Mutator) (m : Measurement) :
    List MeasurementRecord × Option String :=
  match applyMutators [] muts with
  | .ok ctx => (statsRecord ctx m, none)
  | .error e => ([], some e)

/-- `url.URL`, used by the latency adapter only through its `String()`
serialization. -/
structure URL where
  toString : String
deriving DecidableEq, Repr

/-- `time.Duration`: an integer count of nanoseconds. -/
structure Duration where
  ns : Int
deriving DecidableEq, Repr

/-- `Duration.Seconds()`: the duration converted to seconds, the nanosecond
count divided by 10^9 (exact rational arithmetic in place of `float64`). -/
def Duration.seconds (d : Duration) : ℚ := mkRat d.ns 1000000000

namespace metrics

/-! Measure declarations of the core metrics package. -/

def MeasureRequestLatency : Measure := statsFloat64
  "sigs.kubernetes.io/controller-runtime/measures/rest_client_request_latency_seconds"
  "Request latency in seconds"
  "s"

def MeasureRequestResult : Measure := statsInt64
  "sigs.kubernetes.io/controller-runtime/measures/rest_client_requests_total"
  "Number of HTTP requests"
  UnitNone

def MeasureListsTotal : Measure := statsInt64
  "sigs.kubernetes.io/controller-runtime/measures/reflector_lists_total"
  "Total number of API lists done by the reflectors"
  UnitNone

def MeasureListsDuration : Measure := statsFloat64
  "sigs.kubernetes.io/controller-runtime/measures/reflector_list_duration_seconds"
  "How long an API list takes to return and decode for the reflectors"
  UnitNone

def MeasureItemsPerList : Measure := statsFloat64
  "sigs.kubernetes.io/controller-runtime/measures/reflector_items_per_list"
  "How many items an API list returns to the reflectors"
  UnitNone

def MeasureWatchesTotal : Measure := statsInt64
  "sigs.kubernetes.io/controller-runtime/measures/reflector_watches_total"
  "Total number of API watches done by the reflectors"
  UnitNone

def MeasureShortWatchesTotal : Measure := statsInt64
  "sigs.kubernetes.io/controller-runtime/measures/reflector_short_watches_total"
  "Total number of short API watches done by the reflectors"
  UnitNone

def MeasureWatchDuration : Measure := statsFloat64
  "sigs.kubernetes.io/controller-runtime/measures/reflector_watch_duration_seconds"
  "How long an API watch takes to return and decode for the reflectors"
  UnitNone

def MeasureItemsPerWatch : Measure := statsFloat64
  "sigs.kubernetes.io/controller-runtime/measures/reflector_items_per_watch"
  "How many items an API watch returns to the reflectors"
  UnitNone

def MeasureLastResourceVersion : Measure := statsFloat64
  "sigs.kubernetes.io/controller-runtime/measures/reflector_last_resource_version"
  "Last resource version seen for the reflectors"
  UnitNone

def MeasureDepth : Measure := statsInt64
  "sigs.kubernetes.io/controller-runtime/measures/workqueue_depth"
  "Current depth of workqueue"
  UnitNone

def MeasureAdds : Measure := statsInt64
  "sigs.kubernetes.io/controller-runtime/measures/workqueue_adds_total"
  "Total number of adds handled by workqueue"
  UnitNone

def MeasureLatency : Measure := statsFloat64
  "sigs.kubernetes.io/controller-runtime/measures/workqueue_queue_latency_seconds"
  "How long in seconds an item stays in workqueue before being requested."
  "s"

def MeasureWorkDuration : Measure := statsFloat64
  "sigs.kubernetes.io/controller-runtime/measures/workqueue_work_duration_seconds"
  "How long in seconds processing an item from workqueue takes."
  "s"

def MeasureRetries : Measure := statsInt64
  "sigs.kubernetes.io/controller-runtime/measures/workqueue_retries_total"
  "Total number of retries handled by workqueue"
  "s"

def MeasureLongestRunning : Measure := statsFloat64
  "sigs.kubernetes.io/controller-runtime/measures/workqueue_longest_running_processor_microseconds"
  "How many microseconds has the longest running processor for workqueue been running."
  "us"

def MeasureUnfinishedWork : Measure := statsFloat64
  "sigs.kubernetes.io/controller-runtime/measures/workqueue_unfinished_work_seconds"
  "How many seconds of work has done that is in progress and hasn't been observed by work_duration. Large values indicate stuck threads. One can deduce the number of stuck threads by observing the rate at which this increases."
  "s"

/-! Tag keys of the core metrics package. -/

def TagVerb : TagKey := (mustNewTagKey "verb").get (by decide)

def TagURL : TagKey := (mustNewTagKey "url").get (by decide)

def TagCode : TagKey := (mustNewTagKey "code").get (by decide)

def TagMethod : TagKey := (mustNewTagKey "method").get (by decide)

def TagHost : TagKey := (mustNewTagKey "host").get (by decide)

def TagName : TagKey := (mustNewTagKey "name").get (by decide)

/-! Client metrics adapters (method #1 for client-go metrics). -/

/-- The adapter registered for client request latency. -/
structure latencyAdapter where
  metric : Measure
deriving DecidableEq, Repr

/-- `latencyAdapter.Observe(verb, u, latency)`: builds a fresh tag context
from the per-call verb and URL (`ctx, _ := tag.New(...)`, the error being
discarded) and records `latency.Seconds()` against the metric.  The result is
the list of records handed to the export runtime. -/
def latencyAdapter.Observe (a : latencyAdapter) (verb : String) (u : URL)
    (latency : Duration) : List MeasurementRecord :=
  let ctx := (tagNew [tagInsert TagVerb verb, tagInsert TagURL u.toString]).1
  statsRecord ctx (a.metric.M latency.seconds)

/-- The same computation as `latencyAdapter.Observe`, keeping the tag-context
error that the source discards with `ctx, _ := tag.New(...)`. -/
def latencyAdapter.observeE (a : latencyAdapter) (verb : String) (u : URL)
    (latency : Duration) : List MeasurementRecord × Option String :=
  let r := tagNew [tagInsert TagVerb verb, tagInsert TagURL u.toString]
  (statsRecord r.1 (a.metric.M latency.seconds), r.2)

/-- The adapter registered for client request results. -/
structure resultAdapter where
  metric : Measure
deriving DecidableEq, Repr

/-- `resultAdapter.Increment(code, method, host)`: builds a fresh tag context
from the per-call code, method and host (error discarded) and records 1
against the metric. -/
def resultAdapter.Increment (a : resultAdapter) (code method host : String) :
    List MeasurementRecord :=
  let ctx := (tagNew [tagInsert TagCode code, tagInsert TagMethod method,
    tagInsert TagHost host]).1
  statsRecord ctx (a.metric.M 1)

/-- The same computation as `resultAdapter.Increment`, keeping the discarded
tag-context error. -/
def resultAdapter.incrementE (a : resultAdapter) (code method host : String) :
    List MeasurementRecord × Option String :=
  let r := tagNew [tagInsert TagCode code, tagInsert TagMethod method,
    tagInsert TagHost host]
  (statsRecord r.1 (a.metric.M 1), r.2)

/-- The latency adapter handed to the client in `init()`:
`&latencyAdapter{metric: MeasureRequestLatency}`. -/
def registeredLatencyAdapter : latencyAdapter := ⟨MeasureRequestLatency⟩

/-- The result adapter handed to the client in `init()`:
`&resultAdapter{metric: MeasureRequestResult}`. -/
def registeredResultAdapter : resultAdapter := ⟨MeasureRequestResult⟩

/-! Name-bound adapters shared by the reflector and workqueue providers. -/

/-- Counter-kind name-bound adapter (`intMetric`): a captured mutator list
and an int measure. -/
structure intMetric where
  mutators : List Mutator
  measure : Measure
deriving DecidableEq, Repr

/-- `intMetric.Inc()`: `stats.RecordWithTags(ctx, m.mutators, m.measure.M(1))`
with the returned error discarded. -/
def intMetric.Inc (m : intMetric) : List MeasurementRecord :=
  (recordWithTags m.mutators (m.measure.M 1)).1

/-- `intMetric.Inc()` keeping the discarded error. -/
def intMetric.incE (m : intMetric) : List MeasurementRecord × Option String :=
  recordWithTags m.mutators (m.measure.M 1)

/-- `intMetric.Dec()`: records -1, error discarded. -/
def intMetric.Dec (m : intMetric) : List MeasurementRecord :=
  (recordWithTags m.mutators (m.measure.M (-1))).1

/-- `intMetric.Dec()` keeping the discarded error. -/
def intMetric.decE (m : intMetric) : List MeasurementRecord × Option String :=
  recordWithTags m.mutators (m.measure.M (-1))

/-- Float-valued name-bound adapter (`floatMetric`): a captured mutator list
and a float measure. -/
structure floatMetric where
  mutators : List Mutator
  measure : Measure
deriving DecidableEq, Repr

/-- `floatMetric.Observe(v)`: records `v`, error discarded. -/
def floatMetric.Observe (m : floatMetric) (v : ℚ) : List MeasurementRecord :=
  (recordWithTags m.mutators (m.measure.M v)).1

/-- `floatMetric.Observe(v)` keeping the discarded error. -/
def floatMetric.observeE (m : floatMetric) (v : ℚ) :
    List MeasurementRecord × Option String :=
  recordWithTags m.mutators (m.measure.M v)

/-- `floatMetric.Set(v)`: delegates to `Observe`. -/
def floatMetric.Set (m : floatMetric) (v : ℚ) : List MeasurementRecord :=
  m.Observe v

/-- One call on a counter-kind adapter: the whole method surface of
`intMetric` (the interfaces it satisfies expose only `Inc` and `Dec`). -/
inductive IntOp where
  | inc
  | dec
deriving DecidableEq, Repr

/-- Records produced by one `intMetric` call. -/
def intMetric.run (m : intMetric) : IntOp → List MeasurementRecord
  | .inc => m.Inc
  | .dec => m.Dec

/-- Records produced by a sequence of `intMetric` calls issued by a single
caller, in call order. -/
def intMetric.runOps (m : intMetric) : List IntOp → List MeasurementRecord
  | [] => []
  | op :: rest => m.run op ++ m.runOps rest

/-- One call on a float-valued adapter: the whole method surface of
`floatMetric`. -/
inductive FloatOp where
  | observe (v : ℚ)
  | set (v : ℚ)
deriving DecidableEq, Repr

/-- Records produced by one `floatMetric` call. -/
def floatMetric.run (m : floatMetric) : FloatOp → List MeasurementRecord
  | .observe v => m.Observe v
  | .set v => m.Set v

/-- Records produced by a sequence of `floatMetric` calls issued by a single
caller, in call order. -/
def floatMetric.runOps (m : floatMetric) : List FloatOp → List MeasurementRecord
  | [] => []
  | op :: rest => m.run op ++ m.runOps rest

/-! Reflector metrics provider (method #2 for client-go metrics). -/

namespace reflectorMetricsProvider

def NewListsMetric (name : String) : intMetric :=
  { mutators := [tagInsert TagName name], measure := MeasureListsTotal }

def NewListDurationMetric (name : String) : floatMetric :=
  { mutators := [tagInsert TagName name], measure := MeasureListsDuration }

def NewItemsInListMetric (name : String) : floatMetric :=
  { mutators := [tagInsert TagName name], measure := MeasureItemsPerList }

def NewWatchesMetric (name : String) : intMetric :=
  { mutators := [tagInsert TagName name], measure := MeasureWatchesTotal }

def NewShortWatchesMetric (name : String) : intMetric :=
  { mutators := [tagInsert TagName name], measure := MeasureShortWatchesTotal }

def NewWatchDurationMetric (name : String) : floatMetric :=
  { mutators := [tagInsert TagName name], measure := MeasureWatchDuration }

def NewItemsInWatchMetric (name : String) : floatMetric :=
  { mutators := [tagInsert TagName name], measure := MeasureItemsPerWatch }

def NewLastResourceVersionMetric (name : String) : floatMetric :=
  { mutators := [tagInsert TagName name], measure := MeasureLastResourceVersion }

end reflectorMetricsProvider

/-! Workqueue metrics provider (method #3 for client-go metrics). -/

namespace workqueueMetricsProvider

def NewDepthMetric (name : String) : intMetric :=
  { mutators := [tagInsert TagName name], measure := MeasureDepth }

def NewAddsMetric (name : String) : intMetric :=
  { mutators := [tagInsert TagName name], measure := MeasureAdds }

def NewLatencyMetric (name : String) : floatMetric :=
  { mutators := [tagInsert TagName name], measure := MeasureLatency }

def NewWorkDurationMetric (name : String) : floatMetric :=
  { mutators := [tagInsert TagName name], measure := MeasureWorkDuration }

def NewRetriesMetric (name : String) : intMetric :=
  { mutators := [tagInsert TagName name], measure := MeasureRetries }

def NewLongestRunningProcessorMicrosecondsMetric (name : String) : floatMetric :=
  { mutators := [tagInsert TagName name], measure := MeasureLongestRunning }

def NewUnfinishedWorkSecondsMetric (name : String) : floatMetric :=
  { mutators := [tagInsert TagName name], measure := MeasureUnfinishedWork }

end workqueueMetricsProvider

end metrics

/-! Views (`go.opencensus.io/stats/view`). -/

/-- A view aggregation: `view.Count()`, `view.LastValue()` or
`view.Distribution(bounds...)`. -/
inductive Aggregation where
  | count
  | lastValue
  | distribution (bounds : List ℚ)
deriving DecidableEq, Repr

/-- `view.Distribution(bounds...)`. -/
def viewDistribution (bounds : List ℚ) : Aggregation := .distribution bounds

/-- `view.Count()`. -/
def viewCount : Aggregation := .count

/-- `view.LastValue()`. -/
def viewLastValue : Aggregation := .lastValue

/-- A declared view (`view.View`): export name, description, bound measure,
aggregation and the ordered tag keys it groups by. -/
structure View where
  Name : String
  Description : String
  Measure : ControllerRuntime.Measure
  Aggregation : ControllerRuntime.Aggregation
  TagKeys : List TagKey
deriving DecidableEq, Repr

namespace metrics

/-! Views of the core metrics package (`pkg/metrics/default_views.go`). -/

/-- OpenCensus Distribution with the same buckets as the default buckets in
the Prometheus client. -/
def DefaultPrometheusDistribution : Aggregation :=
  viewDistribution [0.005, 0.01, 0.025, 0.05, 0.1, 0.25, 0.5, 1, 2.5, 5, 10]

def ViewRequestLatency : View :=
  { Name := "rest_client_request_latency_seconds"
    Description := "Request latency in seconds. Broken down by verb and URL."
    Measure := MeasureRequestLatency
    Aggregation := viewDistribution
      [0.001, 0.002, 0.004, 0.008, 0.016, 0.032, 0.064, 0.128, 0.256, 0.512]
    TagKeys := [TagVerb, TagURL] }

def ViewRequestResult : View :=
  { Name := "rest_client_requests_total"
    Description := "Number of HTTP requests, partitioned by status code, method, and host."
    Measure := MeasureRequestResult
    Aggregation := viewCount
    TagKeys := [TagCode, TagMethod, TagHost] }

def ViewListsTotal : View :=
  { Name := "reflector_lists_total"
    Description := "Total number of API lists done by the reflectors"
    Measure := MeasureListsTotal
    Aggregation := viewCount
    TagKeys := [TagName] }

def ViewListsDuration : View :=
  { Name := "reflector_list_duration_seconds"
    Description := "How long an API list takes to return and decode for the reflectors"
    Measure := MeasureListsDuration
    Aggregation := DefaultPrometheusDistribution
    TagKeys := [TagName] }

def ViewItemsPerList : View :=
  { Name := "reflector_items_per_list"
    Description := "How many items an API list returns to the reflectors"
    Measure := MeasureItemsPerList
    Aggregation := viewDistribution [0, 1, 5, 10, 50, 100]
    TagKeys := [TagName] }

def ViewWatchesTotal : View :=
  { Name := "reflector_watches_total"
    Description := "Total number of API watches done by the reflectors"
    Measure := MeasureWatchesTotal
    Aggregation := viewCount
    TagKeys := [TagName] }

def ViewShortWatchesTotal : View :=
  { Name := "reflector_short_watches_total"
    Description := "Total number of short API watches done by the reflectors"
    Measure := MeasureShortWatchesTotal
    Aggregation := viewCount
    TagKeys := [TagName] }

def ViewWatchesDuration : View :=
  { Name := "reflector_watch_duration_seconds"
    Description := "How long an API watch takes to return and decode for the reflectors"
    Measure := MeasureWatchDuration
    Aggregation := DefaultPrometheusDistribution
    TagKeys := [TagName] }

def ViewItemsPerWatch : View :=
  { Name := "reflector_items_per_watch"
    Description := "How many items an API watch returns to the reflectors"
    Measure := MeasureItemsPerWatch
    Aggregation := viewDistribution [0, 1, 5, 10, 50, 100]
    TagKeys := [TagName] }

def ViewLastResourceVersion : View :=
  { Name := "reflector_last_resource_version"
    Description := "Last resource version seen for the reflectors"
    Measure := MeasureLastResourceVersion
    Aggregation := viewLastValue
    TagKeys := [TagName] }

def ViewDepth : View :=
  { Name := "workqueue_depth"
    Description := "Current depth of workqueue"
    Measure := MeasureDepth
    Aggregation := viewLastValue
    TagKeys := [TagName] }

def ViewAdds : View :=
  { Name := "workqueue_adds_total"
    Description := "Total number of adds handled by workqueue"
    Measure := MeasureAdds
    Aggregation := viewCount
    TagKeys := [TagName] }

def ViewLatency : View :=
  { Name := "workqueue_queue_latency_seconds"
    Description := "How long in seconds an item stays in workqueue before being requested."
    Measure := MeasureLatency
    Aggregation := viewDistribution
      [1e-08, 1e-07, 1e-06, 1e-05, 1e-04, 0.001, 0.01, 0.1, 1, 10]
    TagKeys := [TagName] }

def ViewWorkDuration : View :=
  { Name := "workqueue_work_duration_seconds"
    Description := "How long in seconds processing an item from workqueue takes."
    Measure := MeasureWorkDuration
    Aggregation := viewDistribution
      [1e-08, 1e-07, 1e-06, 1e-05, 1e-04, 0.001, 0.01, 0.1, 1, 10]
    TagKeys := [TagName] }

def ViewRetries : View :=
  { Name := "workqueue_retries_total"
    Description := "Total number of retries handled by workqueue"
    Measure := MeasureRetries
    Aggregation := viewCount
    TagKeys := [TagName] }

def ViewLongestRunning : View :=
  { Name := "workqueue_longest_running_processor_microseconds"
    Description := "How many microseconds has the longest running processor for workqueue been running."
    Measure := MeasureLongestRunning
    Aggregation := viewLastValue
    TagKeys := [TagName] }

def ViewUnfinishedWork : View :=
  { Name := "workqueue_unfinished_work_seconds"
    Description := "How many seconds of work has done that is in progress and hasn't been observed by work_duration. Large values indicate stuck threads. One can deduce the number of stuck threads by observing the rate at which this increases."
    Measure := MeasureUnfinishedWork
    Aggregation := viewLastValue
    TagKeys := [TagName] }

/-- DefaultViews of the core metrics package, in declaration order. -/
def DefaultViews : List View :=
  [ViewRequestLatency, ViewRequestResult, ViewListsTotal, ViewListsDuration,
   ViewItemsPerList, ViewWatchesTotal, ViewShortWatchesTotal,
   ViewWatchesDuration, ViewItemsPerWatch, ViewLastResourceVersion,
   ViewDepth, ViewAdds, ViewLatency, ViewWorkDuration, ViewRetries,
   ViewLongestRunning, ViewUnfinishedWork]

end metrics

namespace webhookmetrics

/-! The webhook metrics package (`pkg/webhook/metrics`). -/

/-- Counts the total number of webhook requests per webhook; tagged by the
webhook path and the result. -/
def MeasureTotalRequests : Measure := statsInt64
  "sigs.kubernetes.io/controller-runtime/measures/webhook_requests_total"
  "Total number of admission requests"
  UnitNone

/-- Tracks the duration of webhook requests; tagged by the webhook path. -/
def MeasureRequestLatency : Measure := statsFloat64
  "sigs.kubernetes.io/controller-runtime/measures/webhook_latency_seconds"
  "Latency of processing admission requests"
  "s"

/-- Tag referring to the webhook path that handled a request. -/
def TagWebhook : TagKey := (mustNewTagKey "webhook").get (by decide)

/-- Tag referring to the result of a webhook request. -/
def TagSucceeded : TagKey := (mustNewTagKey "succeeded").get (by decide)

def ViewTotalRequests : View :=
  { Name := "controller_runtime_webhook_requests_total"
    Description := "Total number of admission requests"
    Measure := MeasureTotalRequests
    Aggregation := viewCount
    TagKeys := [TagWebhook, TagSucceeded] }

def ViewRequestLatency : View :=
  { Name := "controller_runtime_webhook_latency_seconds"
    Description := "Latency of processing admission requests"
    Measure := MeasureRequestLatency
    Aggregation := metrics.DefaultPrometheusDistribution
    TagKeys := [TagWebhook] }

/-- DefaultViews of the webhook metrics package. -/
def DefaultViews : List View := [ViewTotalRequests, ViewRequestLatency]

/-- Modelled from the spec: the webhook request-handling path that records
against this package's measures is not part of the given sources; per the
spec and the measure documentation it records, per handled request, one
count of 1 against `MeasureTotalRequests` tagged with the webhook path and
the success result, and one latency observation in seconds against
`MeasureRequestLatency` tagged with the webhook path. -/
def webhookRequestRecords (path : String) (succeeded : Bool) (latency : Duration) :
    List MeasurementRecord :=
  (recordWithTags
    [tagInsert TagWebhook path,
     tagInsert TagSucceeded (if succeeded then "true" else "false")]
    (MeasureTotalRequests.M 1)).1 ++
  (recordWithTags [tagInsert TagWebhook path]
    (MeasureRequestLatency.M latency.seconds)).1

end webhookmetrics

/-! Catalog-level definitions used to state the structural invariants. -/

/-- The measures recorded against only by name-bound adapters (every
reflector and workqueue factory binds the name tag). -/
def nameBoundMeasures : List Measure :=
  [metrics.MeasureListsTotal, metrics.MeasureListsDuration,
   metrics.MeasureItemsPerList, metrics.MeasureWatchesTotal,
   metrics.MeasureShortWatchesTotal, metrics.MeasureWatchDuration,
   metrics.MeasureItemsPerWatch, metrics.MeasureLastResourceVersion,
   metrics.MeasureDepth, metrics.MeasureAdds, metrics.MeasureLatency,
   metrics.MeasureWorkDuration, metrics.MeasureRetries,
   metrics.MeasureLongestRunning, metrics.MeasureUnfinishedWork]

/-- The tag keys the adapters of this system populate when recording against
a measure: verb and URL for client request latency, code, method and host for
client request results, the webhook tags for the webhook measures, and the
name tag for every name-bound measure. -/
def emittedTagKeys (m : Measure) : List TagKey :=
  if m = metrics.MeasureRequestLatency then [metrics.TagVerb, metrics.TagURL]
  else if m = metrics.MeasureRequestResult then
    [metrics.TagCode, metrics.TagMethod, metrics.TagHost]
  else if m = webhookmetrics.MeasureTotalRequests then
    [webhookmetrics.TagWebhook, webhookmetrics.TagSucceeded]
  else if m = webhookmetrics.MeasureRequestLatency then
    [webhookmetrics.TagWebhook]
  else if m ∈ nameBoundMeasures then [metrics.TagName]
  else []

/-- One recording call on any adapter this system can construct: the two
registered client adapters, the fifteen name-bound adapters obtainable from
the reflector and workqueue providers (at an arbitrary name), and the
spec-modelled webhook recording path. -/
inductive SystemCall where
  | clientLatency (verb : String) (u : URL) (latency : Duration)
  | clientResult (code method host : String)
  | lists (name : String) (op : metrics.IntOp)
  | listDuration (name : String) (op : metrics.FloatOp)
  | itemsInList (name : String) (op : metrics.FloatOp)
  | watches (name : String) (op : metrics.IntOp)
  | shortWatches (name : String) (op : metrics.IntOp)
  | watchDuration (name : String) (op : metrics.FloatOp)
  | itemsInWatch (name : String) (op : metrics.FloatOp)
  | lastResourceVersion (name : String) (op : metrics.FloatOp)
  | depth (name : String) (op : metrics.IntOp)
  | adds (name : String) (op : metrics.IntOp)
  | queueLatency (name : String) (op : metrics.FloatOp)
  | workDuration (name : String) (op : metrics.FloatOp)
  | retries (name : String) (op : metrics.IntOp)
  | longestRunning (name : String) (op : metrics.FloatOp)
  | unfinishedWork (name : String) (op : metrics.FloatOp)
  | webhookRequest (path : String) (succeeded : Bool) (latency : Duration)

/-- The records a system call hands to the export runtime. -/
def SystemCall.records : SystemCall → List MeasurementRecord
  | .clientLatency verb u latency =>
      metrics.registeredLatencyAdapter.Observe verb u latency
  | .clientResult code method host =>
      metrics.registeredResultAdapter.Increment code method host
  | .lists n op => (metrics.reflectorMetricsProvider.NewListsMetric n).run op
  | .listDuration n op =>
      (metrics.reflectorMetricsProvider.NewListDurationMetric n).run op
  | .itemsInList n op =>
      (metrics.reflectorMetricsProvider.NewItemsInListMetric n).run op
  | .watches n op => (metrics.reflectorMetricsProvider.NewWatchesMetric n).run op
  | .shortWatches n op =>
      (metrics.reflectorMetricsProvider.NewShortWatchesMetric n).run op
  | .watchDuration n op =>
      (metrics.reflectorMetricsProvider.NewWatchDurationMetric n).run op
  | .itemsInWatch n op =>
      (metrics.reflectorMetricsProvider.NewItemsInWatchMetric n).run op
  | .lastResourceVersion n op =>
      (metrics.reflectorMetricsProvider.NewLastResourceVersionMetric n).run op
  | .depth n op => (metrics.workqueueMetricsProvider.NewDepthMetric n).run op
  | .adds n op => (metrics.workqueueMetricsProvider.NewAddsMetric n).run op
  | .queueLatency n op =>
      (metrics.workqueueMetricsProvider.NewLatencyMetric n).run op
  | .workDuration n op =>
      (metrics.workqueueMetricsProvider.NewWorkDurationMetric n).run op
  | .retries n op => (metrics.workqueueMetricsProvider.NewRetriesMetric n).run op
  | .longestRunning n op =>
      (metrics.workqueueMetricsProvider.NewLongestRunningProcessorMicrosecondsMetric n).run op
  | .unfinishedWork n op =>
      (metrics.workqueueMetricsProvider.NewUnfinishedWorkSecondsMetric n).run op
  | .webhookRequest path succeeded latency =>
      webhookmetrics.webhookRequestRecords path succeeded latency

/-- Every measure declared across the core and webhook packages. -/
def allDeclaredMeasures : List Measure :=
  [metrics.MeasureRequestLatency, metrics.MeasureRequestResult,
   metrics.MeasureListsTotal, metrics.MeasureListsDuration,
   metrics.MeasureItemsPerList, metrics.MeasureWatchesTotal,
   metrics.MeasureShortWatchesTotal, metrics.MeasureWatchDuration,
   metrics.MeasureItemsPerWatch, metrics.MeasureLastResourceVersion,
   metrics.MeasureDepth, metrics.MeasureAdds, metrics.MeasureLatency,
   metrics.MeasureWorkDuration, metrics.MeasureRetries,
   metrics.MeasureLongestRunning, metrics.MeasureUnfinishedWork,
   webhookmetrics.MeasureTotalRequests, webhookmetrics.MeasureRequestLatency]

/-- Every view declared in the core metrics package. -/
def allDeclaredCoreViews : List View :=
  [metrics.ViewRequestLatency, metrics.ViewRequestResult,
   metrics.ViewListsTotal, metrics.ViewListsDuration,
   metrics.ViewItemsPerList, metrics.ViewWatchesTotal,
   metrics.ViewShortWatchesTotal, metrics.ViewWatchesDuration,
   metrics.ViewItemsPerWatch, metrics.ViewLastResourceVersion,
   metrics.ViewDepth, metrics.ViewAdds, metrics.ViewLatency,
   metrics.ViewWorkDuration, metrics.ViewRetries,
   metrics.ViewLongestRunning, metrics.ViewUnfinishedWork]

/-- Every view declared in the webhook metrics package. -/
def allDeclaredWebhookViews : List View :=
  [webhookmetrics.ViewTotalRequests, webhookmetrics.ViewRequestLatency]

/-- Every view declared across both packages. -/
def allDeclaredViews : List View :=
  allDeclaredCoreViews ++ allDeclaredWebhookViews

/-- Number of `Inc` calls in a call sequence. -/
def countInc : List metrics.IntOp → Nat
  | [] => 0
  | .inc :: rest => countInc rest + 1
  | .dec :: rest => countInc rest

/-- Number of `Dec` calls in a call sequence. -/
def countDec : List metrics.IntOp → Nat
  | [] => 0
  | .inc :: rest => countDec rest
  | .dec :: rest => countDec rest + 1

/-- The eight tag-key names declared across both packages. -/
def declaredTagKeyNames : List String :=
  ["verb", "url", "code", "method", "host", "name", "webhook", "succeeded"]

/-! Helper lemmas about tag-map construction and record membership. -/

theorem applyInsert_ok_mem {acc : TagMap} {mu : Mutator} {out : TagMap}
    (h : applyInsert acc mu = .ok out) :
    ∀ p ∈ out, p ∈ acc ∨ p = (mu.key, mu.value) := by
  unfold applyInsert at h
  split at h
  · split at h
    · simp only [Except.ok.injEq] at h
      subst h
      exact fun p hp => .inl hp
    · simp only [Except.ok.injEq] at h
      subst h
      intro p hp
      rcases List.mem_append.1 hp with h1 | h1
      · exact .inl h1
      · simp only [List.mem_singleton] at h1
        exact .inr h1
  · simp at h

theorem applyMutators_ok_mem {muts : List Mutator} {acc : TagMap} {out : TagMap}
    (h : applyMutators acc muts = .ok out) :
    ∀ p ∈ out, p ∈ acc ∨ p.1 ∈ muts.map Mutator.key := by
  induction muts generalizing acc with
  | nil =>
    simp only [applyMutators, Except.ok.injEq] at h
    subst h
    exact fun p hp => .inl hp
  | cons mu rest ih =>
    simp only [applyMutators] at h
    cases heq : applyInsert acc mu with
    | ok m2 =>
      rw [heq] at h
      intro p hp
      rcases ih h p hp with h1 | h1
      · rcases applyInsert_ok_mem heq p h1 with h2 | h2
        · exact .inl h2
        · right
          simp [h2]
      · right
        simp [h1]
    | error e =>
      rw [heq] at h
      simp at h

theorem tagNew_mem {muts : List Mutator} {p : TagKey × String}
    (h : p ∈ (tagNew muts).1) : p.1 ∈ muts.map Mutator.key := by
  unfold tagNew at h
  cases heq : applyMutators [] muts with
  | ok m =>
    rw [heq] at h
    rcases applyMutators_ok_mem heq p h with h1 | h1
    · simp at h1
    · exact h1
  | error e =>
    rw [heq] at h
    simp at h

theorem recordWithTags_mem {muts : List Mutator} {m : Measurement}
    {r : MeasurementRecord} (h : r ∈ (recordWithTags muts m).1) :
    r.measure = m.measure ∧ r.value = m.value ∧
      ∀ p ∈ r.tags, p.1 ∈ muts.map Mutator.key := by
  unfold recordWithTags at h
  cases heq : applyMutators [] muts with
  | ok ctx =>
    rw [heq] at h
    simp only [statsRecord, List.mem_singleton] at h
    subst h
    refine ⟨rfl, rfl, ?_⟩
    intro p hp
    rcases applyMutators_ok_mem heq p hp with h1 | h1
    · simp at h1
    · exact h1
  | error e =>
    rw [heq] at h
    simp at h

theorem recordWithTags_single_tag {k : TagKey} {v : String} {m : Measurement}
    {r : MeasurementRecord} (h : r ∈ (recordWithTags [tagInsert k v] m).1) :
    (k, v) ∈ r.tags := by
  by_cases hv : checkValue v = true
  · have he : recordWithTags [tagInsert k v] m =
        ([⟨m.measure, m.value, [(k, v)]⟩], none) := by
      simp [recordWithTags, applyMutators, applyInsert, tagInsert, statsRecord, hv]
    rw [he] at h
    simp only [List.mem_singleton] at h
    subst h
    simp
  · have he : recordWithTags [tagInsert k v] m = ([], some "invalid value") := by
      simp [recordWithTags, applyMutators, applyInsert, tagInsert, hv]
    rw [he] at h
    simp at h

theorem intMetric_run_mem {m : metrics.intMetric} {op : metrics.IntOp}
    {r : MeasurementRecord} (h : r ∈ m.run op) :
    r.measure = m.measure ∧ (r.value = 1 ∨ r.value = -1) ∧
      ∀ p ∈ r.tags, p.1 ∈ m.mutators.map Mutator.key := by
  cases op with
  | inc =>
    simp only [metrics.intMetric.run, metrics.intMetric.Inc] at h
    obtain ⟨h1, h2, h3⟩ := recordWithTags_mem h
    exact ⟨h1, .inl h2, h3⟩
  | dec =>
    simp only [metrics.intMetric.run, metrics.intMetric.Dec] at h
    obtain ⟨h1, h2, h3⟩ := recordWithTags_mem h
    exact ⟨h1, .inr h2, h3⟩

theorem intMetric_runOps_mem {m : metrics.intMetric} {ops : List metrics.IntOp}
    {r : MeasurementRecord} (h : r ∈ m.runOps ops) :
    r.measure = m.measure ∧ (r.value = 1 ∨ r.value = -1) ∧
      ∀ p ∈ r.tags, p.1 ∈ m.mutators.map Mutator.key := by
  induction ops with
  | nil => simp [metrics.intMetric.runOps] at h
  | cons op rest ih =>
    simp only [metrics.intMetric.runOps] at h
    rcases List.mem_append.1 h with h1 | h1
    · exact intMetric_run_mem h1
    · exact ih h1

theorem floatMetric_run_mem {m : metrics.floatMetric} {op : metrics.FloatOp}
    {r : MeasurementRecord} (h : r ∈ m.run op) :
    r.measure = m.measure ∧
      ∀ p ∈ r.tags, p.1 ∈ m.mutators.map Mutator.key := by
  cases op with
  | observe v =>
    simp only [metrics.floatMetric.run, metrics.floatMetric.Observe] at h
    obtain ⟨h1, _, h3⟩ := recordWithTags_mem h
    exact ⟨h1, h3⟩
  | set v =>
    simp only [metrics.floatMetric.run, metrics.floatMetric.Set,
      metrics.floatMetric.Observe] at h
    obtain ⟨h1, _, h3⟩ := recordWithTags_mem h
    exact ⟨h1, h3⟩

theorem floatMetric_runOps_mem {m : metrics.floatMetric}
    {ops : List metrics.FloatOp} {r : MeasurementRecord} (h : r ∈ m.runOps ops) :
    r.measure = m.measure ∧
      ∀ p ∈ r.tags, p.1 ∈ m.mutators.map Mutator.key := by
  induction ops with
  | nil => simp [metrics.floatMetric.runOps] at h
  | cons op rest ih =>
    simp only [metrics.floatMetric.runOps] at h
    rcases List.mem_append.1 h with h1 | h1
    · exact floatMetric_run_mem h1
    · exact ih h1

theorem intMetric_runOps_name_tag {m : metrics.intMetric} {n : String}
    (hm : m.mutators = [tagInsert metrics.TagName n])
    {ops : List metrics.IntOp} {r : MeasurementRecord} (h : r ∈ m.runOps ops) :
    (metrics.TagName, n) ∈ r.tags := by
  induction ops with
  | nil => simp [metrics.intMetric.runOps] at h
  | cons op rest ih =>
    simp only [metrics.intMetric.runOps] at h
    rcases List.mem_append.1 h with h1 | h1
    · cases op with
      | inc =>
        simp only [metrics.intMetric.run, metrics.intMetric.Inc, hm] at h1
        exact recordWithTags_single_tag h1
      | dec =>
        simp only [metrics.intMetric.run, metrics.intMetric.Dec, hm] at h1
        exact recordWithTags_single_tag h1
    · exact ih h1

theorem floatMetric_runOps_name_tag {m : metrics.floatMetric} {n : String}
    (hm : m.mutators = [tagInsert metrics.TagName n])
    {ops : List metrics.FloatOp} {r : MeasurementRecord} (h : r ∈ m.runOps ops) :
    (metrics.TagName, n) ∈ r.tags := by
  induction ops with
  | nil => simp [metrics.floatMetric.runOps] at h
  | cons op rest ih =>
    simp only [metrics.floatMetric.runOps] at h
    rcases List.mem_append.1 h with h1 | h1
    · cases op with
      | observe v =>
        simp only [metrics.floatMetric.run, metrics.floatMetric.Observe, hm] at h1
        exact recordWithTags_single_tag h1
      | set v =>
        simp only [metrics.floatMetric.run, metrics.floatMetric.Set,
          metrics.floatMetric.Observe, hm] at h1
        exact recordWithTags_single_tag h1
    · exact ih h1

/-! Claim theorems. -/

/-- C1: every name-bound adapter constructed by any factory method of the
reflector or workqueue metrics provider with name `n` produces, over every
sequence of `Inc`/`Dec` (counter adapters) or `Observe`/`Set` (float
adapters) calls, only records carrying the tag `(name, n)`. -/
theorem claim_C1 (n : String) (iops : List metrics.IntOp)
    (fops : List metrics.FloatOp) (r : MeasurementRecord) :
    (r ∈ (metrics.reflectorMetricsProvider.NewListsMetric n).runOps iops →
      (metrics.TagName, n) ∈ r.tags) ∧
    (r ∈ (metrics.reflectorMetricsProvider.NewListDurationMetric n).runOps fops →
      (metrics.TagName, n) ∈ r.tags) ∧
    (r ∈ (metrics.reflectorMetricsProvider.NewItemsInListMetric n).runOps fops →
      (metrics.TagName, n) ∈ r.tags) ∧
    (r ∈ (metrics.reflectorMetricsProvider.NewWatchesMetric n).runOps iops →
      (metrics.TagName, n) ∈ r.tags) ∧
    (r ∈ (metrics.reflectorMetricsProvider.NewShortWatchesMetric n).runOps iops →
      (metrics.TagName, n) ∈ r.tags) ∧
    (r ∈ (metrics.reflectorMetricsProvider.NewWatchDurationMetric n).runOps fops →
      (metrics.TagName, n) ∈ r.tags) ∧
    (r ∈ (metrics.reflectorMetricsProvider.NewItemsInWatchMetric n).runOps fops →
      (metrics.TagName, n) ∈ r.tags) ∧
    (r ∈ (metrics.reflectorMetricsProvider.NewLastResourceVersionMetric n).runOps fops →
      (metrics.TagName, n) ∈ r.tags) ∧
    (r ∈ (metrics.workqueueMetricsProvider.NewDepthMetric n).runOps iops →
      (metrics.TagName, n) ∈ r.tags) ∧
    (r ∈ (metrics.workqueueMetricsProvider.NewAddsMetric n).runOps iops →
      (metrics.TagName, n) ∈ r.tags) ∧
    (r ∈ (metrics.workqueueMetricsProvider.NewLatencyMetric n).runOps fops →
      (metrics.TagName, n) ∈ r.tags) ∧
    (r ∈ (metrics.workqueueMetricsProvider.NewWorkDurationMetric n).runOps fops →
      (metrics.TagName, n) ∈ r.tags) ∧
    (r ∈ (metrics.workqueueMetricsProvider.NewRetriesMetric n).runOps iops →
      (metrics.TagName, n) ∈ r.tags) ∧
    (r ∈ (metrics.workqueueMetricsProvider.NewLongestRunningProcessorMicrosecondsMetric n).runOps fops →
      (metrics.TagName, n) ∈ r.tags) ∧
    (r ∈ (metrics.workqueueMetricsProvider.NewUnfinishedWorkSecondsMetric n).runOps fops →
      (metrics.TagName, n) ∈ r.tags) :=
  ⟨fun h => intMetric_runOps_name_tag rfl h,
   fun h => floatMetric_runOps_name_tag rfl h,
   fun h => floatMetric_runOps_name_tag rfl h,
   fun h => intMetric_runOps_name_tag rfl h,
   fun h => intMetric_runOps_name_tag rfl h,
   fun h => floatMetric_runOps_name_tag rfl h,
   fun h => floatMetric_runOps_name_tag rfl h,
   fun h => floatMetric_runOps_name_tag rfl h,
   fun h => intMetric_runOps_name_tag rfl h,
   fun h => intMetric_runOps_name_tag rfl h,
   fun h => floatMetric_runOps_name_tag rfl h,
   fun h => floatMetric_runOps_name_tag rfl h,
   fun h => intMetric_runOps_name_tag rfl h,
   fun h => floatMetric_runOps_name_tag rfl h,
   fun h => floatMetric_runOps_name_tag rfl h⟩

/-- Witness for C1 at name `"foo"`: the record emitted by one `Inc` on the
lists adapter carries the tag `(name, "foo")`. -/
theorem claim_C1_witness :
    (metrics.TagName, "foo") ∈
      (⟨metrics.MeasureListsTotal, 1, [(metrics.TagName, "foo")]⟩ :
        MeasurementRecord).tags :=
  (claim_C1 "foo" [.inc] []
    ⟨metrics.MeasureListsTotal, 1, [(metrics.TagName, "foo")]⟩).1 (by decide)

/-- C2: for every float-valued adapter, `Set v` produces exactly the records
of `Observe v`, and a sequential `Set v` then `Observe v2` produces two
independent records with values `v` and `v2`, in that order (when the
adapter's captured mutators build a tag context successfully). -/
theorem claim_C2 (m : metrics.floatMetric) (v v2 : ℚ) :
    m.Set v = m.Observe v ∧
    ∀ ctx : TagMap, applyMutators [] m.mutators = .ok ctx →
      m.Set v ++ m.Observe v2 =
        [⟨m.measure, v, ctx⟩, ⟨m.measure, v2, ctx⟩] := by
  refine ⟨rfl, ?_⟩
  intro ctx h
  simp [metrics.floatMetric.Set, metrics.floatMetric.Observe, recordWithTags,
    h, statsRecord, Measure.M]

/-- Witness for C2 at the list-duration adapter for `"foo"`: `Set 5` then
`Observe 3` yields the records with values 5 and 3, in order. -/
theorem claim_C2_witness :
    (metrics.reflectorMetricsProvider.NewListDurationMetric "foo").Set 5 ++
      (metrics.reflectorMetricsProvider.NewListDurationMetric "foo").Observe 3 =
    [⟨metrics.MeasureListsDuration, 5, [(metrics.TagName, "foo")]⟩,
     ⟨metrics.MeasureListsDuration, 3, [(metrics.TagName, "foo")]⟩] :=
  (claim_C2 (metrics.reflectorMetricsProvider.NewListDurationMetric "foo") 5 3).2
    [(metrics.TagName, "foo")] rfl

/-- C3: on a counter-kind adapter, `Inc` emits one record of value 1 and
`Dec` one record of value -1, and the values of the records of any sequence
of N `Inc` and M `Dec` calls sum to N - M (when the adapter's captured
mutators build a tag context successfully). -/
theorem claim_C3 (m : metrics.intMetric) (ctx : TagMap)
    (hok : applyMutators [] m.mutators = .ok ctx) :
    (m.Inc = [⟨m.measure, 1, ctx⟩] ∧ m.Dec = [⟨m.measure, -1, ctx⟩]) ∧
    ∀ ops : List metrics.IntOp,
      ((m.runOps ops).map MeasurementRecord.value).sum =
        (countInc ops : ℚ) - (countDec ops : ℚ) := by
  have hinc : m.Inc = [⟨m.measure, 1, ctx⟩] := by
    simp [metrics.intMetric.Inc, recordWithTags, hok, statsRecord, Measure.M]
  have hdec : m.Dec = [⟨m.measure, -1, ctx⟩] := by
    simp [metrics.intMetric.Dec, recordWithTags, hok, statsRecord, Measure.M]
  refine ⟨⟨hinc, hdec⟩, ?_⟩
  intro ops
  induction ops with
  | nil => simp [metrics.intMetric.runOps, countInc, countDec]
  | cons op rest ih =>
    cases op with
    | inc =>
      simp only [metrics.intMetric.runOps, metrics.intMetric.run, hinc,
        List.map_append, List.sum_append, List.map_cons, List.map_nil,
        List.sum_cons, List.sum_nil, ih, countInc, countDec]
      push_cast
      ring
    | dec =>
      simp only [metrics.intMetric.runOps, metrics.intMetric.run, hdec,
        List.map_append, List.sum_append, List.map_cons, List.map_nil,
        List.sum_cons, List.sum_nil, ih, countInc, countDec]
      push_cast
      ring

/-- Witness for C3: two `Inc` and one `Dec` on the lists adapter for
`"foo"` produce records whose values sum to 1. -/
theorem claim_C3_witness :
    (((metrics.reflectorMetricsProvider.NewListsMetric "foo").runOps
      [.inc, .inc, .dec]).map MeasurementRecord.value).sum = 1 := by
  have h := (claim_C3 (metrics.reflectorMetricsProvider.NewListsMetric "foo")
    [(metrics.TagName, "foo")] rfl).2 [.inc, .inc, .dec]
  norm_num [countInc, countDec] at h
  exact h

theorem tagNew_two (k1 k2 : TagKey) (v1 v2 : String) (hne : k1 ≠ k2)
    (h1 : checkValue v1 = true) (h2 : checkValue v2 = true) :
    tagNew [tagInsert k1 v1, tagInsert k2 v2] = ([(k1, v1), (k2, v2)], none) := by
  simp [tagNew, applyMutators, applyInsert, tagInsert, h1, h2, hne]

theorem tagNew_three (k1 k2 k3 : TagKey) (v1 v2 v3 : String)
    (h12 : k1 ≠ k2) (h13 : k1 ≠ k3) (h23 : k2 ≠ k3)
    (h1 : checkValue v1 = true) (h2 : checkValue v2 = true)
    (h3 : checkValue v3 = true) :
    tagNew [tagInsert k1 v1, tagInsert k2 v2, tagInsert k3 v3] =
      ([(k1, v1), (k2, v2), (k3, v3)], none) := by
  simp [tagNew, applyMutators, applyInsert, tagInsert, h1, h2, h3, h12, h13, h23]

theorem emitted_clientLatency :
    emittedTagKeys metrics.MeasureRequestLatency =
      [metrics.TagVerb, metrics.TagURL] := by decide

theorem emitted_clientResult :
    emittedTagKeys metrics.MeasureRequestResult =
      [metrics.TagCode, metrics.TagMethod, metrics.TagHost] := by decide

theorem emitted_webhookTotal :
    emittedTagKeys webhookmetrics.MeasureTotalRequests =
      [webhookmetrics.TagWebhook, webhookmetrics.TagSucceeded] := by decide

theorem emitted_webhookLatency :
    emittedTagKeys webhookmetrics.MeasureRequestLatency =
      [webhookmetrics.TagWebhook] := by decide

theorem emitted_nameBound : ∀ meas ∈ nameBoundMeasures,
    emittedTagKeys meas = [metrics.TagName] := by decide

theorem nameBound_int_case (m : metrics.intMetric) (op : metrics.IntOp)
    (r : MeasurementRecord) (p : TagKey × String)
    (hmeas : emittedTagKeys m.measure = [metrics.TagName])
    (hmut : m.mutators.map Mutator.key = [metrics.TagName])
    (hr : r ∈ m.run op) (hp : p ∈ r.tags) :
    p.1 ∈ emittedTagKeys r.measure := by
  obtain ⟨h1, _, h3⟩ := intMetric_run_mem hr
  rw [h1, hmeas]
  have hptag := h3 p hp
  rw [hmut] at hptag
  exact hptag

theorem nameBound_float_case (m : metrics.floatMetric) (op : metrics.FloatOp)
    (r : MeasurementRecord) (p : TagKey × String)
    (hmeas : emittedTagKeys m.measure = [metrics.TagName])
    (hmut : m.mutators.map Mutator.key = [metrics.TagName])
    (hr : r ∈ m.run op) (hp : p ∈ r.tags) :
    p.1 ∈ emittedTagKeys r.measure := by
  obtain ⟨h1, h3⟩ := floatMetric_run_mem hr
  rw [h1, hmeas]
  have hptag := h3 p hp
  rw [hmut] at hptag
  exact hptag

/-- C4: every declared view's tag-key list is a subset of the tag keys the
adapters of this system populate when recording against the view's bound
measure, and (soundness of the emission catalog) every record any system
call can produce carries only tag keys listed for its measure. -/
theorem claim_C4 :
    (∀ v ∈ allDeclaredViews, ∀ k ∈ v.TagKeys, k ∈ emittedTagKeys v.Measure) ∧
    (∀ c : SystemCall, ∀ r ∈ c.records, ∀ p ∈ r.tags,
      p.1 ∈ emittedTagKeys r.measure) := by
  refine ⟨by decide, ?_⟩
  intro c r hr p hp
  cases c with
  | clientLatency verb u latency =>
    simp only [SystemCall.records, metrics.latencyAdapter.Observe,
      statsRecord, List.mem_singleton] at hr
    subst hr
    have hk := tagNew_mem hp
    simp only [List.map_cons, List.map_nil, tagInsert] at hk
    show p.1 ∈ emittedTagKeys metrics.MeasureRequestLatency
    rw [emitted_clientLatency]
    exact hk
  | clientResult code method host =>
    simp only [SystemCall.records, metrics.resultAdapter.Increment,
      statsRecord, List.mem_singleton] at hr
    subst hr
    have hk := tagNew_mem hp
    simp only [List.map_cons, List.map_nil, tagInsert] at hk
    show p.1 ∈ emittedTagKeys metrics.MeasureRequestResult
    rw [emitted_clientResult]
    exact hk
  | lists n op =>
    exact nameBound_int_case (metrics.reflectorMetricsProvider.NewListsMetric n) op r p
      (emitted_nameBound metrics.MeasureListsTotal (by decide)) rfl hr hp
  | listDuration n op =>
    exact nameBound_float_case (metrics.reflectorMetricsProvider.NewListDurationMetric n) op r p
      (emitted_nameBound metrics.MeasureListsDuration (by decide)) rfl hr hp
  | itemsInList n op =>
    exact nameBound_float_case (metrics.reflectorMetricsProvider.NewItemsInListMetric n) op r p
      (emitted_nameBound metrics.MeasureItemsPerList (by decide)) rfl hr hp
  | watches n op =>
    exact nameBound_int_case (metrics.reflectorMetricsProvider.NewWatchesMetric n) op r p
      (emitted_nameBound metrics.MeasureWatchesTotal (by decide)) rfl hr hp
  | shortWatches n op =>
    exact nameBound_int_case (metrics.reflectorMetricsProvider.NewShortWatchesMetric n) op r p
      (emitted_nameBound metrics.MeasureShortWatchesTotal (by decide)) rfl hr hp
  | watchDuration n op =>
    exact nameBound_float_case (metrics.reflectorMetricsProvider.NewWatchDurationMetric n) op r p
      (emitted_nameBound metrics.MeasureWatchDuration (by decide)) rfl hr hp
  | itemsInWatch n op =>
    exact nameBound_float_case (metrics.reflectorMetricsProvider.NewItemsInWatchMetric n) op r p
      (emitted_nameBound metrics.MeasureItemsPerWatch (by decide)) rfl hr hp
  | lastResourceVersion n op =>
    exact nameBound_float_case (metrics.reflectorMetricsProvider.NewLastResourceVersionMetric n) op r p
      (emitted_nameBound metrics.MeasureLastResourceVersion (by decide)) rfl hr hp
  | depth n op =>
    exact nameBound_int_case (metrics.workqueueMetricsProvider.NewDepthMetric n) op r p
      (emitted_nameBound metrics.MeasureDepth (by decide)) rfl hr hp
  | adds n op =>
    exact nameBound_int_case (metrics.workqueueMetricsProvider.NewAddsMetric n) op r p
      (emitted_nameBound metrics.MeasureAdds (by decide)) rfl hr hp
  | queueLatency n op =>
    exact nameBound_float_case (metrics.workqueueMetricsProvider.NewLatencyMetric n) op r p
      (emitted_nameBound metrics.MeasureLatency (by decide)) rfl hr hp
  | workDuration n op =>
    exact nameBound_float_case (metrics.workqueueMetricsProvider.NewWorkDurationMetric n) op r p
      (emitted_nameBound metrics.MeasureWorkDuration (by decide)) rfl hr hp
  | retries n op =>
    exact nameBound_int_case (metrics.workqueueMetricsProvider.NewRetriesMetric n) op r p
      (emitted_nameBound metrics.MeasureRetries (by decide)) rfl hr hp
  | longestRunning n op =>
    exact nameBound_float_case (metrics.workqueueMetricsProvider.NewLongestRunningProcessorMicrosecondsMetric n) op r p
      (emitted_nameBound metrics.MeasureLongestRunning (by decide)) rfl hr hp
  | unfinishedWork n op =>
    exact nameBound_float_case (metrics.workqueueMetricsProvider.NewUnfinishedWorkSecondsMetric n) op r p
      (emitted_nameBound metrics.MeasureUnfinishedWork (by decide)) rfl hr hp
  | webhookRequest path succeeded latency =>
    simp only [SystemCall.records, webhookmetrics.webhookRequestRecords] at hr
    rcases List.mem_append.1 hr with h1 | h1
    · obtain ⟨hm, _, h3⟩ := recordWithTags_mem h1
      rw [hm]
      show p.1 ∈ emittedTagKeys webhookmetrics.MeasureTotalRequests
      rw [emitted_webhookTotal]
      have hptag := h3 p hp
      simp only [List.map_cons, List.map_nil, tagInsert] at hptag
      exact hptag
    · obtain ⟨hm, _, h3⟩ := recordWithTags_mem h1
      rw [hm]
      show p.1 ∈ emittedTagKeys webhookmetrics.MeasureRequestLatency
      rw [emitted_webhookLatency]
      have hptag := h3 p hp
      simp only [List.map_cons, List.map_nil, tagInsert] at hptag
      exact hptag

/-- Witness for C4: the one record of an `Inc` on the lists adapter for
`"foo"` carries only tag keys that the catalog lists for its measure. -/
theorem claim_C4_witness :
    metrics.TagName ∈ emittedTagKeys metrics.MeasureListsTotal :=
  claim_C4.2 (.lists "foo" .inc)
    ⟨metrics.MeasureListsTotal, 1, [(metrics.TagName, "foo")]⟩ (by decide)
    (metrics.TagName, "foo") (by decide)

/-- C5: each call to a fixed-tag adapter hands exactly one record to the
export runtime, built under a fresh per-call tag context from the values
supplied at call time, the latency record's value being the observed
duration converted to seconds; when the supplied values are valid tag
values, the record carries all the supplied tag pairs. -/
theorem claim_C5 (verb : String) (u : URL) (latency : Duration)
    (code method host : String) :
    (metrics.registeredLatencyAdapter.Observe verb u latency =
      [⟨metrics.MeasureRequestLatency, latency.seconds,
        (tagNew [tagInsert metrics.TagVerb verb,
          tagInsert metrics.TagURL u.toString]).1⟩]) ∧
    (metrics.registeredResultAdapter.Increment code method host =
      [⟨metrics.MeasureRequestResult, 1,
        (tagNew [tagInsert metrics.TagCode code,
          tagInsert metrics.TagMethod method,
          tagInsert metrics.TagHost host]).1⟩]) ∧
    (checkValue verb = true → checkValue u.toString = true →
      ∀ r ∈ metrics.registeredLatencyAdapter.Observe verb u latency,
        (metrics.TagVerb, verb) ∈ r.tags ∧
          (metrics.TagURL, u.toString) ∈ r.tags) ∧
    (checkValue code = true → checkValue method = true →
      checkValue host = true →
      ∀ r ∈ metrics.registeredResultAdapter.Increment code method host,
        (metrics.TagCode, code) ∈ r.tags ∧
          (metrics.TagMethod, method) ∈ r.tags ∧
          (metrics.TagHost, host) ∈ r.tags) := by
  refine ⟨rfl, rfl, ?_, ?_⟩
  · intro hv hu r hr
    have ht := tagNew_two metrics.TagVerb metrics.TagURL verb u.toString
      (by decide) hv hu
    simp only [metrics.latencyAdapter.Observe, ht, statsRecord,
      List.mem_singleton] at hr
    subst hr
    exact ⟨by simp, by simp⟩
  · intro hc hm hh r hr
    have ht := tagNew_three metrics.TagCode metrics.TagMethod metrics.TagHost
      code method host (by decide) (by decide) (by decide) hc hm hh
    simp only [metrics.resultAdapter.Increment, ht, statsRecord,
      List.mem_singleton] at hr
    subst hr
    exact ⟨by simp, by simp, by simp⟩

/-- Witness for C5 at a GET request of two seconds against
`https://example.com` with result 200: the records carry the supplied
tags. -/
theorem claim_C5_witness :
    (metrics.TagVerb, "GET") ∈
      ([(metrics.TagVerb, "GET"), (metrics.TagURL, "https://example.com")] :
        TagMap) ∧
    (metrics.TagCode, "200") ∈
      ([(metrics.TagCode, "200"), (metrics.TagMethod, "GET"),
        (metrics.TagHost, "api")] : TagMap) := by
  constructor
  · exact ((claim_C5 "GET" ⟨"https://example.com"⟩ ⟨2000000000⟩
      "200" "GET" "api").2.2.1 (by decide) (by decide)
      ⟨metrics.MeasureRequestLatency, 2,
        [(metrics.TagVerb, "GET"), (metrics.TagURL, "https://example.com")]⟩
      (by decide)).1
  · exact ((claim_C5 "GET" ⟨"https://example.com"⟩ ⟨2000000000⟩
      "200" "GET" "api").2.2.2 (by decide) (by decide) (by decide)
      ⟨metrics.MeasureRequestResult, 1,
        [(metrics.TagCode, "200"), (metrics.TagMethod, "GET"),
          (metrics.TagHost, "api")]⟩
      (by decide)).1

/-- C6: no adapter recording operation returns or propagates an error: each
operation equals the record component of the corresponding computation that
keeps the error signalled by tag-context creation or by the runtime's record
call, so that error is discarded at this boundary and the operation's result
type carries no failure. -/
theorem claim_C6 (a : metrics.latencyAdapter) (b : metrics.resultAdapter)
    (m : metrics.intMetric) (f : metrics.floatMetric) (verb : String) (u : URL)
    (latency : Duration) (code method host : String) (v : ℚ) :
    a.Observe verb u latency = (a.observeE verb u latency).1 ∧
    b.Increment code method host = (b.incrementE code method host).1 ∧
    m.Inc = m.incE.1 ∧
    m.Dec = m.decE.1 ∧
    f.Observe v = (f.observeE v).1 ∧
    f.Set v = (f.observeE v).1 :=
  ⟨rfl, rfl, rfl, rfl, rfl, rfl⟩

/-- C7: measure names and view names are each globally unique across the
core and webhook packages. -/
theorem claim_C7 :
    (allDeclaredMeasures.map Measure.name).Nodup ∧
    (allDeclaredViews.map View.Name).Nodup := by decide

/-- C8: the exported DefaultViews collections are fixed ordered lists: the
core one is exactly the ordered list of the 17 declared core views, the
webhook one exactly that of the 2 declared webhook views, and the view names
within each collection are pairwise distinct, so each declared view occurs
exactly once. -/
theorem claim_C8 :
    metrics.DefaultViews = allDeclaredCoreViews ∧
    webhookmetrics.DefaultViews = allDeclaredWebhookViews ∧
    metrics.DefaultViews.length = 17 ∧
    webhookmetrics.DefaultViews.length = 2 ∧
    (metrics.DefaultViews.map View.Name).Nodup ∧
    (webhookmetrics.DefaultViews.map View.Name).Nodup :=
  ⟨rfl, rfl, by decide, by decide, by decide, by decide⟩

/-- C9: every tag-key name declared in the source passes the tag-key
validation (length between 1 and 255, printable US-ASCII), so the panic
branch of `mustNewTagKey` is unreachable for each of them. -/
theorem claim_C9 : ∀ k ∈ declaredTagKeyNames,
    checkKeyName k = true ∧ (mustNewTagKey k).isSome = true := by decide

/-- Witness for C9 at `"verb"`. -/
theorem claim_C9_witness :
    checkKeyName "verb" = true ∧ (mustNewTagKey "verb").isSome = true :=
  claim_C9 "verb" (by decide)

/-- C10: the workqueue depth adapter is the counter-kind adapter bound to
`MeasureDepth` (its whole method surface is `Inc`/`Dec`), every record it
produces has value 1 or -1, and `ViewDepth` nevertheless aggregates
`MeasureDepth` by last-value. -/
theorem claim_C10 (n : String) (ops : List metrics.IntOp)
    (r : MeasurementRecord) :
    metrics.workqueueMetricsProvider.NewDepthMetric n =
      ⟨[tagInsert metrics.TagName n], metrics.MeasureDepth⟩ ∧
    (r ∈ (metrics.workqueueMetricsProvider.NewDepthMetric n).runOps ops →
      r.measure = metrics.MeasureDepth ∧ (r.value = 1 ∨ r.value = -1)) ∧
    metrics.ViewDepth.Aggregation = Aggregation.lastValue ∧
    metrics.ViewDepth.Measure = metrics.MeasureDepth := by
  refine ⟨rfl, ?_, rfl, rfl⟩
  intro h
  obtain ⟨h1, h2, _⟩ := intMetric_runOps_mem h
  exact ⟨h1, h2⟩

/-- Witness for C10 at name `"foo"`: the record of one `Inc` on the depth
adapter has value 1 or -1. -/
theorem claim_C10_witness :
    (⟨metrics.MeasureDepth, 1, [(metrics.TagName, "foo")]⟩ :
        MeasurementRecord).measure = metrics.MeasureDepth ∧
    ((⟨metrics.MeasureDepth, 1, [(metrics.TagName, "foo")]⟩ :
        MeasurementRecord).value = 1 ∨
      (⟨metrics.MeasureDepth, 1, [(metrics.TagName, "foo")]⟩ :
        MeasurementRecord).value = -1) :=
  (claim_C10 "foo" [.inc]
    ⟨metrics.MeasureDepth, 1, [(metrics.TagName, "foo")]⟩).2.1 (by decide)

end ControllerRuntime
